import Mathlib

/-!
# Verification of the hbsr template-rendering utility

Shallow embedding of `src/index.js` (package `hbsr`).  The file holds two
revisions of the module, separated by a document marker:

* revision A (lines 1-191): `async render_template` reading via
  `fs.promises.readFile`, and an uncached `render` whose whole body sits in a
  `try`/`catch` re-wrapping non-`TemplateRenderError` failures;
* revision B (lines 192-385): synchronous `render_template` reading via
  `fs.readFileSync`, and a `render` with a module-level compiled-template
  cache (`templateCache`), where compilation happens before the data/options
  validation and outside the `try` block.

The external Handlebars engine, the file system and `path.resolve` are
modelled as opaque parameters, exactly as the spec scopes them out.
-/

namespace Hbsr

/-- The single-quote character (codepoint 39). -/
def squote : Char := Char.ofNat 39

/-- The ampersand character. -/
def amp : Char := '&'

/-- Character escaping of `sanitizeData`'s string case (both revisions):
`&` → `&#x26;`, `<` → `&#x3C;`, `>` → `&#x3E;`, `"` → `&#x22;`,
`'` → `&#x27;`; any other character is kept. -/
def escapeChar (c : Char) : List Char :=
  if c = '&' then ['&', '#', 'x', '2', '6', ';']
  else if c = '<' then ['&', '#', 'x', '3', 'C', ';']
  else if c = '>' then ['&', '#', 'x', '3', 'E', ';']
  else if c = '"' then ['&', '#', 'x', '2', '2', ';']
  else if c = squote then ['&', '#', 'x', '2', '7', ';']
  else [c]

/-- The five characters replaced by `sanitizeData` (the regex class
`[&<>\"']` of revision B). -/
def specials : List Char := ['&', '<', '>', '"', squote]

/-- Single left-to-right pass over the characters, replacing each special
character by its entity: the string case of revision B's `sanitizeData`
(`data.replace(/[&<>\"']/g, match => entities[match])`). -/
def sanitizeChars : List Char → List Char
  | [] => []
  | c :: cs => escapeChar c ++ sanitizeChars cs

/-- `sanitizeData` on a string value. -/
def sanitizeString (s : String) : String := String.mk (sanitizeChars s.data)

/-- One global single-character replacement pass, the model of
`str.replace(/c/g, r)` for a one-character pattern `c`. -/
def replaceAllChar (c : Char) (r : List Char) : List Char → List Char
  | [] => []
  | x :: xs => (if x = c then r else [x]) ++ replaceAllChar c r xs

/-- Revision A's string case of `sanitizeData`: five chained global
replacements, in source order `&`, `<`, `>`, `"`, `'`. -/
def sanitizeCharsChained (l : List Char) : List Char :=
  replaceAllChar squote ['&', '#', 'x', '2', '7', ';']
    (replaceAllChar '"' ['&', '#', 'x', '2', '2', ';']
      (replaceAllChar '>' ['&', '#', 'x', '3', 'E', ';']
        (replaceAllChar '<' ['&', '#', 'x', '3', 'C', ';']
          (replaceAllChar '&' ['&', '#', 'x', '2', '6', ';'] l))))

/-- Inverse entity decoding: scan left to right; whenever one of the five
entity strings starts at the current position, emit the corresponding
character and skip the entity, otherwise copy the character. -/
def decodeChars : List Char → List Char
  | '&' :: '#' :: 'x' :: '2' :: '6' :: ';' :: rest => '&' :: decodeChars rest
  | '&' :: '#' :: 'x' :: '3' :: 'C' :: ';' :: rest => '<' :: decodeChars rest
  | '&' :: '#' :: 'x' :: '3' :: 'E' :: ';' :: rest => '>' :: decodeChars rest
  | '&' :: '#' :: 'x' :: '2' :: '2' :: ';' :: rest => '"' :: decodeChars rest
  | '&' :: '#' :: 'x' :: '2' :: '7' :: ';' :: rest => squote :: decodeChars rest
  | c :: rest => c :: decodeChars rest
  | [] => []

/-- The four characters that may never appear at all in sanitizer output
(`&` re-appears as the head of inserted entities). -/
def isBad (c : Char) : Bool := c == '<' || c == '>' || c == '"' || c == squote

/-- Substring test on character lists (used to state that an error message
includes a given text). -/
def listContainsSub (pat : List Char) : List Char → Bool
  | [] => pat.isEmpty
  | c :: rest => pat.isPrefixOf (c :: rest) || listContainsSub pat rest

/-- Substring test on strings. -/
def strContainsSub (s pat : String) : Bool := listContainsSub pat.data s.data

/-- The test `s.trim() === ''` of the source: a string trims to the empty
string exactly when all of its characters are whitespace. -/
def strBlank (s : String) : Bool := s.data.all fun c => c.isWhitespace

/-! ## The JavaScript value tree

`render`'s `data` and `options` arguments and everything `sanitizeData`
walks: mappings (plain objects as ordered key/value lists), arrays,
strings, numbers, booleans and `null`. -/

mutual

inductive JsVal : Type where
  | vStr : String → JsVal
  | vNum : Int → JsVal
  | vBool : Bool → JsVal
  | vNull : JsVal
  | vArr : JsArr → JsVal
  | vObj : JsObj → JsVal

inductive JsArr : Type where
  | nil : JsArr
  | cons : JsVal → JsArr → JsArr

inductive JsObj : Type where
  | nil : JsObj
  | cons : String → JsVal → JsObj → JsObj

end

/-- Number of elements of an array value. -/
def JsArr.length : JsArr → Nat
  | .nil => 0
  | .cons _ rest => rest.length + 1

/-- Key list of an object value, in insertion order (the order `for..in`
with `hasOwnProperty`, and `Object.entries`, both enumerate). -/
def JsObj.keys : JsObj → List String
  | .nil => []
  | .cons k _ rest => k :: rest.keys

/-- First value stored under a key (JS object keys are unique). -/
def JsObj.lookupKey : JsObj → String → Option JsVal
  | .nil, _ => none
  | .cons k v rest, key => if k = key then some v else rest.lookupKey key

mutual

/-- `sanitizeData` (both revisions): strings escaped, arrays mapped
element-wise, objects rebuilt with the same keys and sanitized values
(revision A via `for..in` + `hasOwnProperty`, revision B via
`Object.entries`/`Object.fromEntries` — both walk own enumerable keys in
insertion order), every other value returned unchanged. -/
def sanitizeData : JsVal → JsVal
  | .vStr s => .vStr (sanitizeString s)
  | .vNum n => .vNum n
  | .vBool b => .vBool b
  | .vNull => .vNull
  | .vArr a => .vArr (sanitizeArr a)
  | .vObj o => .vObj (sanitizeObj o)

/-- `data.map(sanitizeData)` on arrays. -/
def sanitizeArr : JsArr → JsArr
  | .nil => .nil
  | .cons v rest => .cons (sanitizeData v) (sanitizeArr rest)

/-- Per-entry sanitization of objects; keys are not sanitized. -/
def sanitizeObj : JsObj → JsObj
  | .nil => .nil
  | .cons k v rest => .cons k (sanitizeData v) (sanitizeObj rest)

end

mutual

/-- Structural-shape comparison: same constructor everywhere, same keys in
order, same sequence lengths and order, non-string scalars equal; string
leaves may differ. -/
def sameShape : JsVal → JsVal → Bool
  | .vStr _, .vStr _ => true
  | .vNum n, .vNum m => n == m
  | .vBool a, .vBool b => a == b
  | .vNull, .vNull => true
  | .vArr a, .vArr b => sameShapeArr a b
  | .vObj a, .vObj b => sameShapeObj a b
  | _, _ => false

def sameShapeArr : JsArr → JsArr → Bool
  | .nil, .nil => true
  | .cons v a, .cons w b => sameShape v w && sameShapeArr a b
  | _, _ => false

def sameShapeObj : JsObj → JsObj → Bool
  | .nil, .nil => true
  | .cons k v a, .cons k2 w b => k == k2 && sameShape v w && sameShapeObj a b
  | _, _ => false

end

mutual

/-- Nesting depth of a value (string/number/boolean/null leaves count 1,
each array/object level adds 1). -/
def JsVal.depth : JsVal → Nat
  | .vArr a => a.depthA + 1
  | .vObj o => o.depthO + 1
  | _ => 1

def JsArr.depthA : JsArr → Nat
  | .nil => 0
  | .cons v rest => max v.depth rest.depthA

def JsObj.depthO : JsObj → Nat
  | .nil => 0
  | .cons _ v rest => max v.depth rest.depthO

end

mutual

/-- Fuel-instrumented `sanitizeData`: each step into a child consumes one
unit of fuel, `none` when fuel runs out.  Used to state that the
recursive traversal terminates on every finite tree. -/
def sanitizeDataF : Nat → JsVal → Option JsVal
  | 0, _ => none
  | _ + 1, .vStr s => some (.vStr (sanitizeString s))
  | _ + 1, .vNum n => some (.vNum n)
  | _ + 1, .vBool b => some (.vBool b)
  | _ + 1, .vNull => some .vNull
  | n + 1, .vArr a => (sanitizeArrF n a).map .vArr
  | n + 1, .vObj o => (sanitizeObjF n o).map .vObj

def sanitizeArrF : Nat → JsArr → Option JsArr
  | _, .nil => some .nil
  | n, .cons v rest =>
    match sanitizeDataF n v, sanitizeArrF n rest with
    | some w, some ws => some (.cons w ws)
    | _, _ => none

def sanitizeObjF : Nat → JsObj → Option JsObj
  | _, .nil => some .nil
  | n, .cons k v rest =>
    match sanitizeDataF n v, sanitizeObjF n rest with
    | some w, some ws => some (.cons k w ws)
    | _, _ => none

end

/-! ## The Renderer (`render`, both revisions)

The external Handlebars engine is opaque: `compile` either yields a
compiled template of abstract type `T` or fails, and running a compiled
template either yields text or fails.  Failure payloads are the thrown
error's message. -/

/-- Opaque model of the Handlebars engine. -/
structure Engine (T : Type) where
  compile : String → Except String T
  run : T → JsVal → JsVal → Except String String

/-- `typeof x === 'string' && x.trim() !== ''` (the `source`/`basename`
validation). -/
def isNonEmptyString : JsVal → Bool
  | .vStr s => !strBlank s
  | _ => false

/-- `typeof x === 'object' && x !== null` (the `data`/`options`
validation; arrays and plain objects pass, `null` and primitives fail). -/
def isObjectLike : JsVal → Bool
  | .vArr _ => true
  | .vObj _ => true
  | _ => false

/-- `sanitizeExecOptions` (both revisions): returns the options unchanged. -/
def sanitizeExecOptions (options : JsVal) : JsVal := options

/-- A failure escaping `render`.  The first four are
`TemplateRenderError`s with their `code`; `engineRaw` is a raw engine
error that escaped un-wrapped (possible in revision B only). -/
inductive RenderFailure : Type where
  | invalidSource : RenderFailure
  | invalidData : RenderFailure
  | invalidOptions : RenderFailure
  | templateRenderError : String → RenderFailure
  | engineRaw : String → RenderFailure
deriving DecidableEq, Repr

/-- The `message` property of the thrown error. -/
def RenderFailure.message : RenderFailure → String
  | .invalidSource => "Invalid template source"
  | .invalidData => "Invalid data: must be an object"
  | .invalidOptions => "Invalid options: must be an object"
  | .templateRenderError _ => "Error rendering template"
  | .engineRaw m => m

/-- The `code` property of the thrown error (`none` for a raw engine
error, which is not a `TemplateRenderError`). -/
def RenderFailure.code : RenderFailure → Option String
  | .invalidSource => some "INVALID_SOURCE"
  | .invalidData => some "INVALID_DATA"
  | .invalidOptions => some "INVALID_OPTIONS"
  | .templateRenderError _ => some "TEMPLATE_RENDER_ERROR"
  | .engineRaw _ => none

/-- `error instanceof TemplateRenderError`. -/
def RenderFailure.isTRE : RenderFailure → Bool
  | .engineRaw _ => false
  | _ => true

/-- The original failure carried as `cause` by a wrapped
TEMPLATE_RENDER_ERROR. -/
def RenderFailure.cause : RenderFailure → Option String
  | .templateRenderError c => some c
  | _ => none

/-- Revision A `render` (src/index.js lines 113-146): validate source,
data, options in order; sanitize; compile; run; the whole body is inside
`try`/`catch`, re-throwing `TemplateRenderError`s unchanged and wrapping
any other failure as TEMPLATE_RENDER_ERROR with the original as cause. -/
def renderA {T : Type} (eng : Engine T) (source data execOptions : JsVal) :
    Except RenderFailure String :=
  match source with
  | .vStr s =>
    if strBlank s then .error .invalidSource
    else if !isObjectLike data then .error .invalidData
    else if !isObjectLike execOptions then .error .invalidOptions
    else
      match eng.compile s with
      | .error e => .error (.templateRenderError e)
      | .ok t =>
        match eng.run t (sanitizeData data) (sanitizeExecOptions execOptions) with
        | .error e => .error (.templateRenderError e)
        | .ok out => .ok out
  | _ => .error .invalidSource

/-- The compiled-template cache of revision B: a map keyed by the exact
source text. -/
abbrev Cache (T : Type) : Type := List (String × T)

/-- Revision B's cache step (src/index.js lines 307-316): `templateCache.has`
/ `templateCache.get`, else `Handlebars.compile` followed by
`templateCache.set` before use.  The `Nat` counts how many times
`Handlebars.compile` was invoked. -/
def getTemplateB {T : Type} (eng : Engine T) (cache : Cache T) (s : String) :
    Except String T × Cache T × Nat :=
  match List.lookup s cache with
  | some t => (.ok t, cache, 0)
  | none =>
    match eng.compile s with
    | .ok t => (.ok t, (s, t) :: cache, 1)
    | .error e => (.error e, cache, 1)

/-- Revision B `render` (src/index.js lines 302-325), instrumented with the
number of `Handlebars.compile` invocations: validate source; cache lookup /
compile / cache store (compile failures are NOT caught — there is no `try`
around the compile step); then `validateAndSanitizeInputs` (data then
options); only the template invocation sits in `try`/`catch` wrapping its
failure as TEMPLATE_RENDER_ERROR. -/
def renderBC {T : Type} (eng : Engine T) (cache : Cache T)
    (source data execOptions : JsVal) :
    Except RenderFailure String × Cache T × Nat :=
  match source with
  | .vStr s =>
    if strBlank s then (.error .invalidSource, cache, 0)
    else
      match getTemplateB eng cache s with
      | (.error e, cache2, n) => (.error (.engineRaw e), cache2, n)
      | (.ok t, cache2, n) =>
        if !isObjectLike data then (.error .invalidData, cache2, n)
        else if !isObjectLike execOptions then (.error .invalidOptions, cache2, n)
        else
          match eng.run t (sanitizeData data) (sanitizeExecOptions execOptions) with
          | .error e => (.error (.templateRenderError e), cache2, n)
          | .ok out => (.ok out, cache2, n)
  | _ => (.error .invalidSource, cache, 0)

/-- Revision B `render` without the instrumentation: result and final
cache. -/
def renderB {T : Type} (eng : Engine T) (cache : Cache T)
    (source data execOptions : JsVal) : Except RenderFailure String × Cache T :=
  let r := renderBC eng cache source data execOptions
  (r.1, r.2.1)

/-! ## The File Loader (`render_template`, both variants) -/

/-- A file-system read failure: `ENOENT` (path does not exist) or any
other error, carrying its message. -/
inductive FsErr : Type where
  | enoent : FsErr
  | other : String → FsErr
deriving DecidableEq, Repr

/-- A failure escaping `render_template` (all four are plain `Error`s in
the source, distinguished here by their message shape). -/
inductive FileRenderError : Type where
  | invalidBasename : FileRenderError
  | invalidOptionsArg : FileRenderError
  | templateNotFound : String → FileRenderError
  | readError : String → FileRenderError
deriving DecidableEq, Repr

/-- The `message` of the thrown `Error`. -/
def FileRenderError.message : FileRenderError → String
  | .invalidBasename => "Invalid basename: must be a non-empty string"
  | .invalidOptionsArg => "Invalid options: must be an object"
  | .templateNotFound p => "Template file not found: " ++ p
  | .readError m => "Error reading template file: " ++ m

/-- The process-wide `module.exports.options` configuration pair. -/
structure ModuleOptions : Type where
  template_path : String
  template_extension : String
deriving DecidableEq, Repr

/-- Its initial value. -/
def defaultModuleOptions : ModuleOptions :=
  { template_path := "templates", template_extension := ".hbs" }

/-- `options.key || fallback` for the two string-valued template settings
(JS `||` falls back on the empty string, which is falsy; non-string
setting values are outside the model). -/
def getStrOpt (options : JsVal) (key fallback : String) : String :=
  match options with
  | .vObj kvs =>
    match kvs.lookupKey key with
    | some (.vStr s) => if s == "" then fallback else s
    | _ => fallback
  | _ => fallback

/-- `render_template`, revision A (src/index.js lines 27-73, the `async`
variant reading via `fs.promises.readFile`): validate basename and
options; resolve `path.resolve(dir, basename + ext)` (the platform's
`path.resolve` is the opaque `resolve`); read; on ENOENT throw
"Template file not found"; on any other caught error — including a
failure thrown by the delegated `render`, whose `code` is never
'ENOENT' — throw "Error reading template file: " + the error's message;
on success delegate to revision A's `render`. -/
def renderTemplateA {T : Type} (eng : Engine T)
    (resolve : String → String → String)
    (fs : String → Except FsErr String) (cfg : ModuleOptions)
    (basename data options : JsVal) : Except FileRenderError String :=
  match basename with
  | .vStr b =>
    if strBlank b then .error .invalidBasename
    else if !isObjectLike options then .error .invalidOptionsArg
    else
      let templateFilename :=
        resolve (getStrOpt options "template_path" cfg.template_path)
          (b ++ getStrOpt options "template_extension" cfg.template_extension)
      match fs templateFilename with
      | .error .enoent => .error (.templateNotFound templateFilename)
      | .error (.other m) => .error (.readError m)
      | .ok content =>
        match renderA eng (.vStr content) data options with
        | .ok out => .ok out
        | .error re => .error (.readError re.message)
  | _ => .error .invalidBasename

/-- `render_template`, revision B (src/index.js lines 218-264, the
synchronous variant reading via `fs.readFileSync`): identical body, but
delegating to revision B's cached `render`, whose cache survives the
call even when the render fails. -/
def renderTemplateB {T : Type} (eng : Engine T)
    (resolve : String → String → String)
    (fs : String → Except FsErr String) (cfg : ModuleOptions)
    (cache : Cache T) (basename data options : JsVal) :
    Except FileRenderError String × Cache T :=
  match basename with
  | .vStr b =>
    if strBlank b then (.error .invalidBasename, cache)
    else if !isObjectLike options then (.error .invalidOptionsArg, cache)
    else
      let templateFilename :=
        resolve (getStrOpt options "template_path" cfg.template_path)
          (b ++ getStrOpt options "template_extension" cfg.template_extension)
      match fs templateFilename with
      | .error .enoent => (.error (.templateNotFound templateFilename), cache)
      | .error (.other m) => (.error (.readError m), cache)
      | .ok content =>
        match renderBC eng cache (.vStr content) data options with
        | (.ok out, cache2, _) => (.ok out, cache2)
        | (.error re, cache2, _) => (.error (.readError re.message), cache2)
  | _ => (.error .invalidBasename, cache)

/-- Modelled from the spec (§4.3/§9, refinement comparison): the single
shared File-Loader pathway — validation, path resolution, read, error
translation — parameterized by the underlying render primitive.  Both
variants are claimed to be instances of this pathway. -/
def renderTemplateCore
    (resolve : String → String → String)
    (fs : String → Except FsErr String) (cfg : ModuleOptions)
    (renderFn : JsVal → JsVal → JsVal → Except RenderFailure String)
    (basename data options : JsVal) : Except FileRenderError String :=
  match basename with
  | .vStr b =>
    if strBlank b then .error .invalidBasename
    else if !isObjectLike options then .error .invalidOptionsArg
    else
      let templateFilename :=
        resolve (getStrOpt options "template_path" cfg.template_path)
          (b ++ getStrOpt options "template_extension" cfg.template_extension)
      match fs templateFilename with
      | .error .enoent => .error (.templateNotFound templateFilename)
      | .error (.other m) => .error (.readError m)
      | .ok content =>
        match renderFn (.vStr content) data options with
        | .ok out => .ok out
        | .error re => .error (.readError re.message)
  | _ => .error .invalidBasename

/-- Modelled from the spec (§4.2, ordering comparison): the first of the
three validation failures, in the spec's order source, data, options. -/
def firstValidationFailure (source data options : JsVal) : Option RenderFailure :=
  if !isNonEmptyString source then some .invalidSource
  else if !isObjectLike data then some .invalidData
  else if !isObjectLike options then some .invalidOptions
  else none

/-- A trivial concrete engine whose compilation and runs always succeed
(test double). -/
def engOk : Engine Unit :=
  { compile := fun _ => .ok (), run := fun _ _ _ => .ok "out" }

/-- A concrete engine whose compilation always fails (test double). -/
def engCompileFail : Engine Unit :=
  { compile := fun _ => .error "boom", run := fun _ _ _ => .ok "out" }

/-- A concrete engine that compiles but whose compiled template always
throws (test double). -/
def engRunFail : Engine Unit :=
  { compile := fun _ => .ok (), run := fun _ _ _ => .error "kaput" }

/-! ## Theorems -/

theorem replaceAllChar_append (c : Char) (r a b : List Char) :
    replaceAllChar c r (a ++ b) = replaceAllChar c r a ++ replaceAllChar c r b := by
  induction a with
  | nil => rfl
  | cons x xs ih => simp [replaceAllChar, ih]

theorem sanitizeCharsChained_singleton (c : Char) :
    sanitizeCharsChained [c] = escapeChar c := by
  by_cases h1 : c = '&'
  · subst h1; decide
  by_cases h2 : c = '<'
  · subst h2; decide
  by_cases h3 : c = '>'
  · subst h3; decide
  by_cases h4 : c = '"'
  · subst h4; decide
  by_cases h5 : c = squote
  · subst h5; decide
  simp [sanitizeCharsChained, replaceAllChar, escapeChar, h1, h2, h3, h4, h5]

theorem sanitizeCharsChained_eq_sanitizeChars (l : List Char) :
    sanitizeCharsChained l = sanitizeChars l := by
  induction l with
  | nil => rfl
  | cons c cs ih =>
    have hsplit : sanitizeCharsChained (c :: cs) =
        sanitizeCharsChained [c] ++ sanitizeCharsChained cs := by
      show sanitizeCharsChained ([c] ++ cs) = _
      simp only [sanitizeCharsChained, replaceAllChar_append]
    rw [hsplit, sanitizeCharsChained_singleton, ih]
    rfl

set_option maxHeartbeats 4000000 in
theorem decodeChars_cons_ne_amp (c : Char) (l : List Char) (h : c ≠ '&') :
    decodeChars (c :: l) = c :: decodeChars l := by
  rw [decodeChars.eq_def]
  split
  case h_1 => rename_i heq; exact absurd (List.cons.inj heq).1 h
  case h_2 => rename_i heq; exact absurd (List.cons.inj heq).1 h
  case h_3 => rename_i heq; exact absurd (List.cons.inj heq).1 h
  case h_4 => rename_i heq; exact absurd (List.cons.inj heq).1 h
  case h_5 => rename_i heq; exact absurd (List.cons.inj heq).1 h
  case h_6 =>
    rename_i heq
    obtain ⟨h1, h2⟩ := List.cons.inj heq
    rw [← h1, ← h2]
  case h_7 => rename_i heq; exact absurd heq (by simp)

theorem escapeChar_of_not_special (c : Char) (hc : c ∉ specials) :
    escapeChar c = [c] := by
  simp [specials] at hc
  obtain ⟨h1, h2, h3, h4, h5⟩ := hc
  simp [escapeChar, h1, h2, h3, h4, h5]

theorem decodeChars_sanitizeChars (l : List Char) :
    decodeChars (sanitizeChars l) = l := by
  induction l with
  | nil => rfl
  | cons c cs ih =>
    by_cases h1 : c = '&'
    · subst h1
      show decodeChars ('&' :: '#' :: 'x' :: '2' :: '6' :: ';' :: sanitizeChars cs) = _
      rw [show decodeChars ('&' :: '#' :: 'x' :: '2' :: '6' :: ';' :: sanitizeChars cs)
            = '&' :: decodeChars (sanitizeChars cs) from rfl, ih]
    by_cases h2 : c = '<'
    · subst h2
      show decodeChars ('&' :: '#' :: 'x' :: '3' :: 'C' :: ';' :: sanitizeChars cs) = _
      rw [show decodeChars ('&' :: '#' :: 'x' :: '3' :: 'C' :: ';' :: sanitizeChars cs)
            = '<' :: decodeChars (sanitizeChars cs) from rfl, ih]
    by_cases h3 : c = '>'
    · subst h3
      show decodeChars ('&' :: '#' :: 'x' :: '3' :: 'E' :: ';' :: sanitizeChars cs) = _
      rw [show decodeChars ('&' :: '#' :: 'x' :: '3' :: 'E' :: ';' :: sanitizeChars cs)
            = '>' :: decodeChars (sanitizeChars cs) from rfl, ih]
    by_cases h4 : c = '"'
    · subst h4
      show decodeChars ('&' :: '#' :: 'x' :: '2' :: '2' :: ';' :: sanitizeChars cs) = _
      rw [show decodeChars ('&' :: '#' :: 'x' :: '2' :: '2' :: ';' :: sanitizeChars cs)
            = '"' :: decodeChars (sanitizeChars cs) from rfl, ih]
    by_cases h5 : c = squote
    · subst h5
      show decodeChars ('&' :: '#' :: 'x' :: '2' :: '7' :: ';' :: sanitizeChars cs) = _
      rw [show decodeChars ('&' :: '#' :: 'x' :: '2' :: '7' :: ';' :: sanitizeChars cs)
            = squote :: decodeChars (sanitizeChars cs) from rfl, ih]
    · have hesc : escapeChar c = [c] :=
        escapeChar_of_not_special c (by simp [specials, h1, h2, h3, h4, h5])
      show decodeChars (escapeChar c ++ sanitizeChars cs) = _
      rw [hesc]
      show decodeChars (c :: sanitizeChars cs) = _
      rw [decodeChars_cons_ne_amp c _ h1, ih]

theorem no_bad_in_escapeChar (c b : Char) (hmem : b ∈ escapeChar c) :
    isBad b = false := by
  by_cases h1 : c = '&'
  · subst h1
    exact (by decide : ∀ x ∈ (['&', '#', 'x', '2', '6', ';'] : List Char), isBad x = false) b hmem
  by_cases h2 : c = '<'
  · subst h2
    exact (by decide : ∀ x ∈ (['&', '#', 'x', '3', 'C', ';'] : List Char), isBad x = false) b hmem
  by_cases h3 : c = '>'
  · subst h3
    exact (by decide : ∀ x ∈ (['&', '#', 'x', '3', 'E', ';'] : List Char), isBad x = false) b hmem
  by_cases h4 : c = '"'
  · subst h4
    exact (by decide : ∀ x ∈ (['&', '#', 'x', '2', '2', ';'] : List Char), isBad x = false) b hmem
  by_cases h5 : c = squote
  · subst h5
    exact (by decide : ∀ x ∈ (['&', '#', 'x', '2', '7', ';'] : List Char), isBad x = false) b hmem
  · have hesc : escapeChar c = [c] :=
      escapeChar_of_not_special c (by simp [specials, h1, h2, h3, h4, h5])
    rw [hesc] at hmem
    simp at hmem
    subst hmem
    simp [isBad, h2, h3, h4, h5]

theorem sanitizeChars_no_bad (l : List Char) (b : Char) (hb : isBad b = true) :
    b ∉ sanitizeChars l := by
  induction l with
  | nil => simp [sanitizeChars]
  | cons c cs ih =>
    simp only [sanitizeChars, List.mem_append]
    rintro (h | h)
    · rw [no_bad_in_escapeChar c b h] at hb
      exact Bool.false_ne_true hb
    · exact ih h

theorem isPrefixOf_append_self (e t : List Char) :
    e.isPrefixOf (e ++ t) = true := by
  induction e with
  | nil => simp [List.isPrefixOf]
  | cons c cs ih => simp [List.isPrefixOf, ih]

theorem escapeChar_special_length : ∀ c ∈ specials, (escapeChar c).length = 6 := by
  decide

theorem escapeChar_amp_only_head :
    ∀ c ∈ specials, ∀ i, i < 6 → (escapeChar c)[i]? = some '&' → i = 0 := by
  decide

theorem sanitizeChars_amp_entity (l : List Char) :
    ∀ u v, sanitizeChars l = u ++ '&' :: v →
      ∃ d ∈ specials, (escapeChar d).isPrefixOf ('&' :: v) = true := by
  induction l with
  | nil => intro u v h; exact absurd h (by simp [sanitizeChars])
  | cons c cs ih =>
    intro u v h
    simp only [sanitizeChars] at h
    rcases List.append_eq_append_iff.mp h with ⟨w, hw1, hw2⟩ | ⟨w, hw1, hw2⟩
    · exact ih w v hw2
    · cases w with
      | nil =>
        simp only [List.nil_append] at hw2
        exact ih [] v (by simpa using hw2.symm)
      | cons x w2 =>
        have hx : x = '&' := (List.cons.inj hw2).1.symm
        subst hx
        have hv : v = w2 ++ sanitizeChars cs := (List.cons.inj hw2).2
        by_cases hc : c ∈ specials
        · have hulen : u.length < 6 := by
            have hlen6 := escapeChar_special_length c hc
            have hlen : (escapeChar c).length = u.length + (w2.length + 1) := by
              rw [hw1]; simp
            omega
          have hget : (escapeChar c)[u.length]? = some '&' := by
            rw [hw1, List.getElem?_append_right (le_refl u.length)]
            simp
          have hu0 : u.length = 0 := escapeChar_amp_only_head c hc u.length hulen hget
          have hu : u = [] := List.length_eq_zero.mp hu0
          subst hu
          have he : escapeChar c = '&' :: w2 := by simpa using hw1
          refine ⟨c, hc, ?_⟩
          rw [hv,
            show ('&' :: (w2 ++ sanitizeChars cs)) = ('&' :: w2) ++ sanitizeChars cs from rfl,
            ← he]
          exact isPrefixOf_append_self _ _
        · have hesc : escapeChar c = [c] := escapeChar_of_not_special c hc
          rw [hesc] at hw1
          cases u with
          | nil =>
            simp only [List.nil_append] at hw1
            have hca : c = '&' := (List.cons.inj hw1).1
            exact absurd hc (by simp [hca, specials])
          | cons y ys =>
            have hlen := congrArg List.length hw1
            simp at hlen


theorem JsVal.depth_pos : ∀ v : JsVal, 1 ≤ v.depth := by
  intro v
  cases v <;> simp [JsVal.depth]

mutual

theorem sameShape_sanitizeData : ∀ v : JsVal, sameShape v (sanitizeData v) = true
  | .vStr _ => rfl
  | .vNum n => by simp [sanitizeData, sameShape]
  | .vBool b => by simp [sanitizeData, sameShape]
  | .vNull => rfl
  | .vArr a => sameShapeArr_sanitizeArr a
  | .vObj o => sameShapeObj_sanitizeObj o

theorem sameShapeArr_sanitizeArr : ∀ a : JsArr, sameShapeArr a (sanitizeArr a) = true
  | .nil => rfl
  | .cons v rest => by
    simp only [sanitizeArr, sameShapeArr]
    rw [sameShape_sanitizeData v, sameShapeArr_sanitizeArr rest]
    rfl

theorem sameShapeObj_sanitizeObj : ∀ o : JsObj, sameShapeObj o (sanitizeObj o) = true
  | .nil => rfl
  | .cons k v rest => by
    simp only [sanitizeObj, sameShapeObj]
    rw [sameShape_sanitizeData v, sameShapeObj_sanitizeObj rest]
    simp

end

theorem sanitizeObj_keys : ∀ o : JsObj, (sanitizeObj o).keys = o.keys
  | .nil => rfl
  | .cons k v rest => by simp [sanitizeObj, JsObj.keys, sanitizeObj_keys rest]

theorem sanitizeArr_length : ∀ a : JsArr, (sanitizeArr a).length = a.length
  | .nil => rfl
  | .cons v rest => by simp [sanitizeArr, JsArr.length, sanitizeArr_length rest]

mutual

theorem sanitizeDataF_of_depth_le : ∀ (v : JsVal) (n : Nat), v.depth ≤ n →
    sanitizeDataF n v = some (sanitizeData v)
  | v, 0, h => absurd h (by have := v.depth_pos; omega)
  | .vStr _, _ + 1, _ => rfl
  | .vNum _, _ + 1, _ => rfl
  | .vBool _, _ + 1, _ => rfl
  | .vNull, _ + 1, _ => rfl
  | .vArr a, n + 1, h => by
    have ha : a.depthA ≤ n := by simp [JsVal.depth] at h; omega
    simp only [sanitizeDataF, sanitizeData]
    rw [sanitizeArrF_of_depth_le a n ha]
    rfl
  | .vObj o, n + 1, h => by
    have ho : o.depthO ≤ n := by simp [JsVal.depth] at h; omega
    simp only [sanitizeDataF, sanitizeData]
    rw [sanitizeObjF_of_depth_le o n ho]
    rfl

theorem sanitizeArrF_of_depth_le : ∀ (a : JsArr) (n : Nat), a.depthA ≤ n →
    sanitizeArrF n a = some (sanitizeArr a)
  | .nil, _, _ => rfl
  | .cons v rest, n, h => by
    have h1 : v.depth ≤ n := by
      simp only [JsArr.depthA, max_le_iff] at h
      exact h.1
    have h2 : rest.depthA ≤ n := by
      simp only [JsArr.depthA, max_le_iff] at h
      exact h.2
    simp only [sanitizeArrF, sanitizeArr]
    rw [sanitizeDataF_of_depth_le v n h1, sanitizeArrF_of_depth_le rest n h2]

theorem sanitizeObjF_of_depth_le : ∀ (o : JsObj) (n : Nat), o.depthO ≤ n →
    sanitizeObjF n o = some (sanitizeObj o)
  | .nil, _, _ => rfl
  | .cons k v rest, n, h => by
    have h1 : v.depth ≤ n := by
      simp only [JsObj.depthO, max_le_iff] at h
      exact h.1
    have h2 : rest.depthO ≤ n := by
      simp only [JsObj.depthO, max_le_iff] at h
      exact h.2
    simp only [sanitizeObjF, sanitizeObj]
    rw [sanitizeDataF_of_depth_le v n h1, sanitizeObjF_of_depth_le rest n h2]

end


/-- C1: for every string s, `sanitizeData s` replaces every occurrence of
`&`, `<`, `>`, `"`, `'` by its fixed hexadecimal entity, scanning left to
right, non-overlapping, in a single pass (`sanitizeChars` is that single
pass applied character-wise, and revision A's five chained global
replacements compute the same function); the output contains no raw
occurrence of the five characters — none of `<`, `>`, `"`, `'` occurs at
all, and every occurrence of `&` is the head of one of the five inserted
entity strings; and the inverse entity decoding maps the output back to s
(round-trip law). -/
theorem C1_sanitize_escape_roundtrip (s : String) :
    sanitizeData (JsVal.vStr s) = JsVal.vStr (sanitizeString s) ∧
    sanitizeCharsChained s.data = sanitizeChars s.data ∧
    (∀ b : Char, isBad b = true → b ∉ (sanitizeString s).data) ∧
    (∀ u v : List Char, (sanitizeString s).data = u ++ amp :: v →
      ∃ d ∈ specials, (escapeChar d).isPrefixOf (amp :: v) = true) ∧
    decodeChars (sanitizeString s).data = s.data := by
  refine ⟨rfl, sanitizeCharsChained_eq_sanitizeChars s.data, ?_, ?_, ?_⟩
  · intro b hb
    exact sanitizeChars_no_bad s.data b hb
  · intro u v h
    exact sanitizeChars_amp_entity s.data u v h
  · exact decodeChars_sanitizeChars s.data

/-- Witness for C1, at the concrete string made of `a` and `<`: the round
trip, the absence of a raw `<`, and the entity-headedness of the `&` that
the sanitizer introduced at position 1. -/
theorem C1_sanitize_escape_roundtrip_witness :
    decodeChars (sanitizeString (String.mk ['a', '<'])).data = ['a', '<'] ∧
    '<' ∉ (sanitizeString (String.mk ['a', '<'])).data ∧
    ∃ d ∈ specials, (escapeChar d).isPrefixOf (amp :: ['#', 'x', '3', 'C', ';']) = true :=
  ⟨(C1_sanitize_escape_roundtrip (String.mk ['a', '<'])).2.2.2.2,
   (C1_sanitize_escape_roundtrip (String.mk ['a', '<'])).2.2.1 '<' (by decide),
   (C1_sanitize_escape_roundtrip (String.mk ['a', '<'])).2.2.2.1 ['a'] ['#', 'x', '3', 'C', ';']
     (by decide)⟩

/-- C2: sanitization never changes the structural shape of a data tree:
`sanitizeData D` has the same shape as D (same constructors, same key
lists in insertion order — keys not sanitized —, same sequence lengths and
element order, equal non-string scalars), object key lists and array
lengths are preserved exactly, and every number, boolean and null is
returned unchanged; only string leaf content may differ. -/
theorem C2_sanitize_shape (D : JsVal) (a : JsArr) (o : JsObj) (n : Int) (b : Bool) :
    sameShape D (sanitizeData D) = true ∧
    (sanitizeArr a).length = a.length ∧
    (sanitizeObj o).keys = o.keys ∧
    sanitizeData (JsVal.vNum n) = JsVal.vNum n ∧
    sanitizeData (JsVal.vBool b) = JsVal.vBool b ∧
    sanitizeData JsVal.vNull = JsVal.vNull :=
  ⟨sameShape_sanitizeData D, sanitizeArr_length a, sanitizeObj_keys o, rfl, rfl, rfl⟩

/-- C9: `sanitizeData` terminates and returns a value on every finite data
tree, raising no error for any input constructor: with fuel at least the
tree's depth the fuel-instrumented traversal reaches no out-of-fuel case
and computes `sanitizeData`.  Finiteness is the stated precondition: the
traversal has no cycle guard, and an inductive tree is necessarily
finite. -/
theorem C9_sanitize_total (v : JsVal) (n : Nat) (h : v.depth ≤ n) :
    sanitizeDataF n v = some (sanitizeData v) :=
  sanitizeDataF_of_depth_le v n h

/-- Witness for C9 at a concrete two-level tree with fuel 2. -/
theorem C9_sanitize_total_witness :
    (JsVal.vArr (JsArr.cons (JsVal.vStr "x") JsArr.nil)).depth ≤ 2 ∧
    sanitizeDataF 2 (JsVal.vArr (JsArr.cons (JsVal.vStr "x") JsArr.nil)) =
      some (sanitizeData (JsVal.vArr (JsArr.cons (JsVal.vStr "x") JsArr.nil))) :=
  ⟨by decide, C9_sanitize_total _ 2 (by decide)⟩


theorem getTemplateB_hit {T : Type} (eng : Engine T) (cache : Cache T) (s : String) (t : T)
    (h : List.lookup s cache = some t) :
    getTemplateB eng cache s = (.ok t, cache, 0) := by
  simp [getTemplateB, h]

theorem getTemplateB_miss_ok {T : Type} (eng : Engine T) (cache : Cache T) (s : String) (t : T)
    (h : List.lookup s cache = none) (hc : eng.compile s = .ok t) :
    getTemplateB eng cache s = (.ok t, (s, t) :: cache, 1) := by
  simp [getTemplateB, h, hc]

theorem getTemplateB_miss_err {T : Type} (eng : Engine T) (cache : Cache T) (s : String)
    (e : String) (h : List.lookup s cache = none) (hc : eng.compile s = .error e) :
    getTemplateB eng cache s = (.error e, cache, 1) := by
  simp [getTemplateB, h, hc]

theorem renderA_validation {T : Type} (eng : Engine T) :
    ∀ (source data options : JsVal) (f : RenderFailure),
    firstValidationFailure source data options = some f →
    renderA eng source data options = .error f := by
  intro source data options f hf
  cases source with
  | vStr s =>
    cases hs : strBlank s with
    | true =>
      simp [firstValidationFailure, isNonEmptyString, hs] at hf
      simp [renderA, hs, ← hf]
    | false =>
      cases hd : isObjectLike data with
      | false =>
        simp [firstValidationFailure, isNonEmptyString, hs, hd] at hf
        simp [renderA, hs, hd, ← hf]
      | true =>
        cases ho : isObjectLike options with
        | false =>
          simp [firstValidationFailure, isNonEmptyString, hs, hd, ho] at hf
          simp [renderA, hs, hd, ho, ← hf]
        | true =>
          simp [firstValidationFailure, isNonEmptyString, hs, hd, ho] at hf
  | vNum n =>
    simp [firstValidationFailure, isNonEmptyString] at hf
    simp [renderA, ← hf]
  | vBool b =>
    simp [firstValidationFailure, isNonEmptyString] at hf
    simp [renderA, ← hf]
  | vNull =>
    simp [firstValidationFailure, isNonEmptyString] at hf
    simp [renderA, ← hf]
  | vArr a =>
    simp [firstValidationFailure, isNonEmptyString] at hf
    simp [renderA, ← hf]
  | vObj o =>
    simp [firstValidationFailure, isNonEmptyString] at hf
    simp [renderA, ← hf]

theorem renderA_compile_error {T : Type} (eng : Engine T) (s : String) (data options : JsVal)
    (e : String) (hs : strBlank s = false) (hd : isObjectLike data = true)
    (ho : isObjectLike options = true) (hc : eng.compile s = .error e) :
    renderA eng (JsVal.vStr s) data options = .error (.templateRenderError e) := by
  simp [renderA, hs, hd, ho, hc]

theorem renderA_run_error {T : Type} (eng : Engine T) (s : String) (data options : JsVal)
    (t : T) (e : String) (hs : strBlank s = false) (hd : isObjectLike data = true)
    (ho : isObjectLike options = true) (hc : eng.compile s = .ok t)
    (hr : eng.run t (sanitizeData data) (sanitizeExecOptions options) = .error e) :
    renderA eng (JsVal.vStr s) data options = .error (.templateRenderError e) := by
  simp [renderA, hs, hd, ho, hc, hr]

theorem renderA_run_ok {T : Type} (eng : Engine T) (s : String) (data options : JsVal)
    (t : T) (out : String) (hs : strBlank s = false) (hd : isObjectLike data = true)
    (ho : isObjectLike options = true) (hc : eng.compile s = .ok t)
    (hr : eng.run t (sanitizeData data) (sanitizeExecOptions options) = .ok out) :
    renderA eng (JsVal.vStr s) data options = .ok out := by
  simp [renderA, hs, hd, ho, hc, hr]

theorem renderBC_invalidSource {T : Type} (eng : Engine T) (cache : Cache T) :
    ∀ (source data options : JsVal), isNonEmptyString source = false →
    renderBC eng cache source data options = (.error .invalidSource, cache, 0) := by
  intro source data options h
  cases source with
  | vStr s =>
    simp only [isNonEmptyString, Bool.not_eq_false'] at h
    simp [renderBC, h]
  | vNum n => rfl
  | vBool b => rfl
  | vNull => rfl
  | vArr a => rfl
  | vObj o => rfl

theorem renderBC_engineRaw {T : Type} (eng : Engine T) (cache : Cache T) (s : String)
    (data options : JsVal) (e : String) (c2 : Cache T) (n : Nat)
    (hs : strBlank s = false) (hg : getTemplateB eng cache s = (.error e, c2, n)) :
    renderBC eng cache (JsVal.vStr s) data options = (.error (.engineRaw e), c2, n) := by
  simp [renderBC, hs, hg]

theorem renderBC_invalidData {T : Type} (eng : Engine T) (cache : Cache T) (s : String)
    (data options : JsVal) (t : T) (c2 : Cache T) (n : Nat)
    (hs : strBlank s = false) (hg : getTemplateB eng cache s = (.ok t, c2, n))
    (hd : isObjectLike data = false) :
    renderBC eng cache (JsVal.vStr s) data options = (.error .invalidData, c2, n) := by
  simp [renderBC, hs, hg, hd]

theorem renderBC_invalidOptions {T : Type} (eng : Engine T) (cache : Cache T) (s : String)
    (data options : JsVal) (t : T) (c2 : Cache T) (n : Nat)
    (hs : strBlank s = false) (hg : getTemplateB eng cache s = (.ok t, c2, n))
    (hd : isObjectLike data = true) (ho : isObjectLike options = false) :
    renderBC eng cache (JsVal.vStr s) data options = (.error .invalidOptions, c2, n) := by
  simp [renderBC, hs, hg, hd, ho]

theorem renderBC_run_error {T : Type} (eng : Engine T) (cache : Cache T) (s : String)
    (data options : JsVal) (t : T) (c2 : Cache T) (n : Nat) (e : String)
    (hs : strBlank s = false) (hg : getTemplateB eng cache s = (.ok t, c2, n))
    (hd : isObjectLike data = true) (ho : isObjectLike options = true)
    (hr : eng.run t (sanitizeData data) (sanitizeExecOptions options) = .error e) :
    renderBC eng cache (JsVal.vStr s) data options
      = (.error (.templateRenderError e), c2, n) := by
  simp [renderBC, hs, hg, hd, ho, hr]

theorem renderBC_run_ok {T : Type} (eng : Engine T) (cache : Cache T) (s : String)
    (data options : JsVal) (t : T) (c2 : Cache T) (n : Nat) (out : String)
    (hs : strBlank s = false) (hg : getTemplateB eng cache s = (.ok t, c2, n))
    (hd : isObjectLike data = true) (ho : isObjectLike options = true)
    (hr : eng.run t (sanitizeData data) (sanitizeExecOptions options) = .ok out) :
    renderBC eng cache (JsVal.vStr s) data options = (.ok out, c2, n) := by
  simp [renderBC, hs, hg, hd, ho, hr]

theorem renderBC_state {T : Type} (eng : Engine T) (cache : Cache T) (s : String)
    (data options : JsVal) (t : T) (c2 : Cache T) (n : Nat)
    (hs : strBlank s = false) (hg : getTemplateB eng cache s = (.ok t, c2, n)) :
    (renderBC eng cache (JsVal.vStr s) data options).2 = (c2, n) := by
  cases hd : isObjectLike data with
  | false => rw [renderBC_invalidData eng cache s data options t c2 n hs hg hd]
  | true =>
    cases ho : isObjectLike options with
    | false => rw [renderBC_invalidOptions eng cache s data options t c2 n hs hg hd ho]
    | true =>
      cases hr : eng.run t (sanitizeData data) (sanitizeExecOptions options) with
      | error e => rw [renderBC_run_error eng cache s data options t c2 n e hs hg hd ho hr]
      | ok out => rw [renderBC_run_ok eng cache s data options t c2 n out hs hg hd ho hr]

theorem firstValidationFailure_cases (source data options : JsVal) (f : RenderFailure)
    (h : firstValidationFailure source data options = some f) :
    f = .invalidSource ∨ f = .invalidData ∨ f = .invalidOptions := by
  unfold firstValidationFailure at h
  split_ifs at h <;> simp at h <;> simp [← h]


theorem getTemplateB_cache_preserves {T : Type} (eng : Engine T) (cache : Cache T)
    (s : String) (k : String) (v : T) (h : List.lookup k cache = some v) :
    List.lookup k (getTemplateB eng cache s).2.1 = some v := by
  cases hl : List.lookup s cache with
  | some t => rw [getTemplateB_hit eng cache s t hl]; exact h
  | none =>
    cases hc : eng.compile s with
    | ok t =>
      rw [getTemplateB_miss_ok eng cache s t hl hc]
      have hks : (k == s) = false := by
        by_cases hk : k = s
        · subst hk; rw [h] at hl; cases hl
        · simp [hk]
      simp [List.lookup, hks, h]
    | error e => rw [getTemplateB_miss_err eng cache s e hl hc]; exact h

theorem renderBC_cache_cases {T : Type} (eng : Engine T) (cache : Cache T)
    (source data options : JsVal) :
    (renderBC eng cache source data options).2.1 = cache ∨
    ∃ s t, source = JsVal.vStr s ∧ strBlank s = false ∧
      List.lookup s cache = none ∧ eng.compile s = .ok t ∧
      (renderBC eng cache source data options).2.1 = (s, t) :: cache := by
  cases source with
  | vStr s =>
    cases hb : strBlank s with
    | true =>
      left
      rw [renderBC_invalidSource eng cache (JsVal.vStr s) data options
        (by simp [isNonEmptyString, hb])]
    | false =>
      cases hl : List.lookup s cache with
      | some t =>
        left
        exact congrArg Prod.fst
          (renderBC_state eng cache s data options t cache 0 hb
            (getTemplateB_hit eng cache s t hl))
      | none =>
        cases hc : eng.compile s with
        | ok t =>
          right
          refine ⟨s, t, rfl, hb, hl, hc, ?_⟩
          exact congrArg Prod.fst
            (renderBC_state eng cache s data options t ((s, t) :: cache) 1 hb
              (getTemplateB_miss_ok eng cache s t hl hc))
        | error e =>
          left
          rw [renderBC_engineRaw eng cache s data options e cache 1 hb
            (getTemplateB_miss_err eng cache s e hl hc)]
  | vNum n => left; rfl
  | vBool b => left; rfl
  | vNull => left; rfl
  | vArr a => left; rfl
  | vObj o => left; rfl

/-- C3 (amended): both revisions validate in the order source, data,
options with the first failure winning among the validations; in revision
A all three validations precede any engine access (the failure is fully
determined by `firstValidationFailure`, for every engine); in revision B
only the source validation precedes the cache access and compilation —
data and options are validated, in that order, after the compile/cache
step and before invocation. -/
theorem C3_render_validation_order {T : Type} (eng : Engine T) (cache : Cache T) :
    (∀ (source data options : JsVal) (f : RenderFailure),
      firstValidationFailure source data options = some f →
      renderA eng source data options = .error f) ∧
    (∀ source data options : JsVal, isNonEmptyString source = false →
      renderBC eng cache source data options = (.error .invalidSource, cache, 0)) ∧
    (∀ (s : String) (data options : JsVal) (t : T) (c2 : Cache T) (n : Nat),
      strBlank s = false → getTemplateB eng cache s = (.ok t, c2, n) →
      isObjectLike data = false →
      renderBC eng cache (JsVal.vStr s) data options = (.error .invalidData, c2, n)) ∧
    (∀ (s : String) (data options : JsVal) (t : T) (c2 : Cache T) (n : Nat),
      strBlank s = false → getTemplateB eng cache s = (.ok t, c2, n) →
      isObjectLike data = true → isObjectLike options = false →
      renderBC eng cache (JsVal.vStr s) data options = (.error .invalidOptions, c2, n)) :=
  ⟨renderA_validation eng,
   renderBC_invalidSource eng cache,
   fun s data options t c2 n hs hg hd =>
     renderBC_invalidData eng cache s data options t c2 n hs hg hd,
   fun s data options t c2 n hs hg hd ho =>
     renderBC_invalidOptions eng cache s data options t c2 n hs hg hd ho⟩

/-- C3 counterexample: the claim says all three validations happen before
any template compilation or cache access.  In revision B, a call with
valid source and invalid data compiles once and stores the compiled
template in the cache before failing with INVALID_DATA; and with a
failing compiler, the raw compile error — not INVALID_DATA — escapes. -/
theorem C3_counterexample :
    renderBC engOk ([] : Cache Unit) (JsVal.vStr "x") JsVal.vNull (JsVal.vObj JsObj.nil)
      = (.error .invalidData, [("x", ())], 1) ∧
    renderBC engCompileFail ([] : Cache Unit) (JsVal.vStr "x") JsVal.vNull (JsVal.vObj JsObj.nil)
      = (.error (.engineRaw "boom"), [], 1) :=
  ⟨rfl, rfl⟩

/-- Witness for C3 (amended) at concrete inputs. -/
theorem C3_render_validation_order_witness :
    renderA engOk JsVal.vNull (JsVal.vObj JsObj.nil) (JsVal.vObj JsObj.nil)
      = .error .invalidSource ∧
    renderBC engOk ([] : Cache Unit) JsVal.vNull (JsVal.vObj JsObj.nil) (JsVal.vObj JsObj.nil)
      = (.error .invalidSource, [], 0) ∧
    renderBC engOk ([] : Cache Unit) (JsVal.vStr "x") JsVal.vNull (JsVal.vObj JsObj.nil)
      = (.error .invalidData, [("x", ())], 1) ∧
    renderBC engOk ([] : Cache Unit) (JsVal.vStr "x") (JsVal.vObj JsObj.nil) JsVal.vNull
      = (.error .invalidOptions, [("x", ())], 1) :=
  ⟨(C3_render_validation_order engOk ([] : Cache Unit)).1 JsVal.vNull _ _
      RenderFailure.invalidSource rfl,
   (C3_render_validation_order engOk ([] : Cache Unit)).2.1 JsVal.vNull _ _ rfl,
   (C3_render_validation_order engOk ([] : Cache Unit)).2.2.1 "x" JsVal.vNull
      (JsVal.vObj JsObj.nil) () [("x", ())] 1 (by decide) rfl rfl,
   (C3_render_validation_order engOk ([] : Cache Unit)).2.2.2 "x" (JsVal.vObj JsObj.nil)
      JsVal.vNull () [("x", ())] 1 (by decide) rfl rfl rfl⟩

/-- C4 (amended): in revision A every non-validation failure — during
compilation or during invocation — is caught and re-signaled as a
TEMPLATE_RENDER_ERROR carrying the original failure as cause, while
validation failures propagate with their specific kind and are never
TEMPLATE_RENDER_ERROR; in revision B invocation failures are wrapped the
same way, but compilation failures propagate un-wrapped (they are not
`TemplateRenderError`s at all). -/
theorem C4_render_error_wrapping {T : Type} (eng : Engine T) (cache : Cache T) :
    (∀ (s : String) (data options : JsVal) (e : String),
      strBlank s = false → isObjectLike data = true → isObjectLike options = true →
      eng.compile s = .error e →
      renderA eng (JsVal.vStr s) data options = .error (.templateRenderError e) ∧
      (RenderFailure.templateRenderError e).cause = some e ∧
      (RenderFailure.templateRenderError e).code = some "TEMPLATE_RENDER_ERROR") ∧
    (∀ (s : String) (data options : JsVal) (t : T) (e : String),
      strBlank s = false → isObjectLike data = true → isObjectLike options = true →
      eng.compile s = .ok t →
      eng.run t (sanitizeData data) (sanitizeExecOptions options) = .error e →
      renderA eng (JsVal.vStr s) data options = .error (.templateRenderError e)) ∧
    (∀ (source data options : JsVal) (f : RenderFailure),
      firstValidationFailure source data options = some f →
      renderA eng source data options = .error f ∧
      f.code ≠ some "TEMPLATE_RENDER_ERROR" ∧ f.isTRE = true) ∧
    (∀ (s : String) (data options : JsVal) (t : T) (c2 : Cache T) (n : Nat) (e : String),
      strBlank s = false → getTemplateB eng cache s = (.ok t, c2, n) →
      isObjectLike data = true → isObjectLike options = true →
      eng.run t (sanitizeData data) (sanitizeExecOptions options) = .error e →
      renderBC eng cache (JsVal.vStr s) data options
        = (.error (.templateRenderError e), c2, n)) ∧
    (∀ (s : String) (data options : JsVal) (e : String),
      strBlank s = false → List.lookup s cache = none → eng.compile s = .error e →
      renderBC eng cache (JsVal.vStr s) data options = (.error (.engineRaw e), cache, 1) ∧
      (RenderFailure.engineRaw e).isTRE = false ∧
      (RenderFailure.engineRaw e).code = none) := by
  refine ⟨?_, ?_, ?_, ?_, ?_⟩
  · intro s data options e hs hd ho hc
    exact ⟨renderA_compile_error eng s data options e hs hd ho hc, rfl, rfl⟩
  · intro s data options t e hs hd ho hc hr
    exact renderA_run_error eng s data options t e hs hd ho hc hr
  · intro source data options f hf
    refine ⟨renderA_validation eng source data options f hf, ?_, ?_⟩
    · rcases firstValidationFailure_cases source data options f hf with rfl | rfl | rfl <;> decide
    · rcases firstValidationFailure_cases source data options f hf with rfl | rfl | rfl <;> rfl
  · intro s data options t c2 n e hs hg hd ho hr
    exact renderBC_run_error eng cache s data options t c2 n e hs hg hd ho hr
  · intro s data options e hs hl hc
    exact ⟨renderBC_engineRaw eng cache s data options e cache 1 hs
        (getTemplateB_miss_err eng cache s e hl hc), rfl, rfl⟩

/-- C4 counterexample: in revision B a compilation failure escapes as the
raw engine error — its `code` is not TEMPLATE_RENDER_ERROR and it is not
a `TemplateRenderError` — contradicting the claim that every
non-validation compilation failure is re-signaled as
TEMPLATE_RENDER_ERROR. -/
theorem C4_counterexample :
    (renderBC engCompileFail ([] : Cache Unit) (JsVal.vStr "x")
        (JsVal.vObj JsObj.nil) (JsVal.vObj JsObj.nil)).1
      = .error (.engineRaw "boom") ∧
    (RenderFailure.engineRaw "boom").code ≠ some "TEMPLATE_RENDER_ERROR" ∧
    (RenderFailure.engineRaw "boom").isTRE = false :=
  ⟨rfl, by decide, rfl⟩

/-- Witness for C4 (amended) at concrete inputs: a wrapped compile failure
and a wrapped run failure in revision A, a propagated validation failure,
and revision B's wrapped run failure and un-wrapped compile failure. -/
theorem C4_render_error_wrapping_witness :
    (renderA engCompileFail (JsVal.vStr "x") (JsVal.vObj JsObj.nil) (JsVal.vObj JsObj.nil)
      = .error (.templateRenderError "boom") ∧
     (RenderFailure.templateRenderError "boom").cause = some "boom" ∧
     (RenderFailure.templateRenderError "boom").code = some "TEMPLATE_RENDER_ERROR") ∧
    renderA engRunFail (JsVal.vStr "x") (JsVal.vObj JsObj.nil) (JsVal.vObj JsObj.nil)
      = .error (.templateRenderError "kaput") ∧
    renderA engOk JsVal.vNull (JsVal.vObj JsObj.nil) (JsVal.vObj JsObj.nil)
      = .error .invalidSource ∧
    renderBC engRunFail ([] : Cache Unit) (JsVal.vStr "x") (JsVal.vObj JsObj.nil)
        (JsVal.vObj JsObj.nil)
      = (.error (.templateRenderError "kaput"), [("x", ())], 1) ∧
    renderBC engCompileFail ([] : Cache Unit) (JsVal.vStr "x") (JsVal.vObj JsObj.nil)
        (JsVal.vObj JsObj.nil)
      = (.error (.engineRaw "boom"), [], 1) :=
  ⟨(C4_render_error_wrapping engCompileFail ([] : Cache Unit)).1 "x" _ _ "boom"
      (by decide) rfl rfl rfl,
   (C4_render_error_wrapping engRunFail ([] : Cache Unit)).2.1 "x" _ _ () "kaput"
      (by decide) rfl rfl rfl rfl,
   ((C4_render_error_wrapping engOk ([] : Cache Unit)).2.2.1 JsVal.vNull _ _
      RenderFailure.invalidSource rfl).1,
   (C4_render_error_wrapping engRunFail ([] : Cache Unit)).2.2.2.1 "x" _ _ () [("x", ())] 1
      "kaput" (by decide) rfl rfl rfl rfl,
   ((C4_render_error_wrapping engCompileFail ([] : Cache Unit)).2.2.2.2 "x" _ _ "boom"
      (by decide) rfl rfl).1⟩


/-- C7: with the compiled-template cache, two sequential `render` calls
with the identical source text compile the engine callable only once:
the first call (source not yet cached, compilation succeeding) invokes
`Handlebars.compile` exactly once and stores the compiled template under
the exact source text before use; the second call with the same text
invokes it zero times; previously stored entries are never evicted
(every cached binding survives a call), and any call whose source is
already cached compiles zero times. -/
theorem C7_cache_compiles_once {T : Type} (eng : Engine T) (cache : Cache T)
    (s : String) (t : T) (d1 o1 d2 o2 : JsVal)
    (hs : strBlank s = false) (hmiss : List.lookup s cache = none)
    (hc : eng.compile s = .ok t) :
    (renderBC eng cache (JsVal.vStr s) d1 o1).2.2 = 1 ∧
    List.lookup s (renderBC eng cache (JsVal.vStr s) d1 o1).2.1 = some t ∧
    (renderBC eng (renderBC eng cache (JsVal.vStr s) d1 o1).2.1
      (JsVal.vStr s) d2 o2).2.2 = 0 ∧
    (∀ (k : String) (v : T), List.lookup k cache = some v →
      List.lookup k (renderBC eng cache (JsVal.vStr s) d1 o1).2.1 = some v) ∧
    (∀ (cache2 : Cache T) (t2 : T), List.lookup s cache2 = some t2 →
      (renderBC eng cache2 (JsVal.vStr s) d2 o2).2.2 = 0) := by
  have hstate := renderBC_state eng cache s d1 o1 t ((s, t) :: cache) 1 hs
    (getTemplateB_miss_ok eng cache s t hmiss hc)
  have hcc : (renderBC eng cache (JsVal.vStr s) d1 o1).2.1 = (s, t) :: cache :=
    congrArg Prod.fst hstate
  have hcn : (renderBC eng cache (JsVal.vStr s) d1 o1).2.2 = 1 :=
    congrArg Prod.snd hstate
  refine ⟨hcn, ?_, ?_, ?_, ?_⟩
  · rw [hcc]; simp [List.lookup]
  · rw [hcc]
    have hhit : List.lookup s ((s, t) :: cache) = some t := by simp [List.lookup]
    exact congrArg Prod.snd
      (renderBC_state eng ((s, t) :: cache) s d2 o2 t ((s, t) :: cache) 0 hs
        (getTemplateB_hit eng ((s, t) :: cache) s t hhit))
  · intro k v hkv
    rw [hcc]
    have hks : (k == s) = false := by
      by_cases hk : k = s
      · subst hk; rw [hkv] at hmiss; cases hmiss
      · simp [hk]
    simp [List.lookup, hks, hkv]
  · intro cache2 t2 h2
    exact congrArg Prod.snd
      (renderBC_state eng cache2 s d2 o2 t2 cache2 0 hs
        (getTemplateB_hit eng cache2 s t2 h2))

/-- Witness for C7 at a concrete engine, source and empty cache: the
first call compiles once and caches, the second call compiles zero
times. -/
theorem C7_cache_compiles_once_witness :
    (renderBC engOk ([] : Cache Unit) (JsVal.vStr "x")
      (JsVal.vObj JsObj.nil) (JsVal.vObj JsObj.nil)).2.2 = 1 ∧
    List.lookup "x" (renderBC engOk ([] : Cache Unit) (JsVal.vStr "x")
      (JsVal.vObj JsObj.nil) (JsVal.vObj JsObj.nil)).2.1 = some () ∧
    (renderBC engOk
      (renderBC engOk ([] : Cache Unit) (JsVal.vStr "x")
        (JsVal.vObj JsObj.nil) (JsVal.vObj JsObj.nil)).2.1
      (JsVal.vStr "x") (JsVal.vObj JsObj.nil) (JsVal.vObj JsObj.nil)).2.2 = 0 := by
  have h := C7_cache_compiles_once engOk ([] : Cache Unit) "x" ()
    (JsVal.vObj JsObj.nil) (JsVal.vObj JsObj.nil) (JsVal.vObj JsObj.nil)
    (JsVal.vObj JsObj.nil) (by decide) rfl rfl
  exact ⟨h.1, h.2.1, h.2.2.1⟩

/-- C10: in the cached revision, the INVALID_SOURCE check precedes every
cache access: a call with an invalid source fails with INVALID_SOURCE,
compiles nothing, and returns the cache exactly unchanged, for every
engine and cache state; and every key ever stored in `templateCache` is
a source string that is non-empty after trimming — the invariant that all
cached keys are non-blank is preserved by every call. -/
theorem C10_cache_keys_valid {T : Type} (eng : Engine T) (cache : Cache T)
    (source data options : JsVal) :
    (isNonEmptyString source = false →
      renderBC eng cache source data options = (.error .invalidSource, cache, 0)) ∧
    ((∀ p ∈ cache, strBlank (Prod.fst p) = false) →
      ∀ p ∈ (renderBC eng cache source data options).2.1,
        strBlank (Prod.fst p) = false) := by
  refine ⟨renderBC_invalidSource eng cache source data options, ?_⟩
  intro hinv p hp
  rcases renderBC_cache_cases eng cache source data options with
    hcase | ⟨s, t, hsrc, hb, hl, hc, hcase⟩
  · rw [hcase] at hp; exact hinv p hp
  · rw [hcase] at hp
    rcases List.mem_cons.mp hp with rfl | hp2
    · exact hb
    · exact hinv p hp2

/-- Witness for C10: a blank source leaves the empty cache unchanged, and
after a call with the valid source all cached keys are non-blank. -/
theorem C10_cache_keys_valid_witness :
    renderBC engOk ([] : Cache Unit) (JsVal.vStr " ")
      (JsVal.vObj JsObj.nil) (JsVal.vObj JsObj.nil)
      = (.error .invalidSource, [], 0) ∧
    ∀ p ∈ (renderBC engOk ([] : Cache Unit) (JsVal.vStr "x")
      (JsVal.vObj JsObj.nil) (JsVal.vObj JsObj.nil)).2.1,
      strBlank (Prod.fst p) = false :=
  ⟨(C10_cache_keys_valid engOk ([] : Cache Unit) (JsVal.vStr " ") _ _).1 (by decide),
   (C10_cache_keys_valid engOk ([] : Cache Unit) (JsVal.vStr "x")
      (JsVal.vObj JsObj.nil) (JsVal.vObj JsObj.nil)).2 (by simp)⟩


theorem listContainsSub_append (pat u w : List Char) :
    listContainsSub pat (u ++ pat ++ w) = true := by
  induction u with
  | nil =>
    cases pat with
    | nil =>
      cases w with
      | nil => rfl
      | cons x xs => simp [listContainsSub, List.isPrefixOf]
    | cons p ps =>
      simp only [List.nil_append, List.cons_append, listContainsSub]
      rw [show (p :: ps.append w : List Char) = (p :: ps) ++ w from rfl,
        isPrefixOf_append_self]
      simp
  | cons x xs ih =>
    simp only [List.cons_append, listContainsSub]
    rw [show ((xs.append pat).append w : List Char) = xs ++ pat ++ w from rfl, ih]
    simp

theorem strContainsSub_append_right (pre s : String) :
    strContainsSub (pre ++ s) s = true := by
  unfold strContainsSub
  have hdata : (pre ++ s).data = pre.data ++ s.data ++ [] := by simp
  rw [hdata]
  exact listContainsSub_append s.data pre.data []

/-- C5 (amended): when the file read succeeds, both variants of
`render_template` delegate to their revision's `render` with the file's
text, the original data and the original options, and return its result
on success; but a `render` failure is caught by the same handler as read
failures (its `code` is never ENOENT) and is re-thrown as a plain
"Error reading template file: " error carrying the render failure's
message — it is re-translated into a file-read error rather than
propagated unchanged. -/
theorem C5_render_template_delegation {T : Type} (eng : Engine T)
    (resolve : String → String → String) (fs : String → Except FsErr String)
    (cfg : ModuleOptions) (b : String) (data options : JsVal) (content : String)
    (hb : strBlank b = false) (ho : isObjectLike options = true)
    (hread : fs (resolve (getStrOpt options "template_path" cfg.template_path)
      (b ++ getStrOpt options "template_extension" cfg.template_extension))
        = .ok content) :
    (∀ out, renderA eng (JsVal.vStr content) data options = .ok out →
      renderTemplateA eng resolve fs cfg (JsVal.vStr b) data options = .ok out) ∧
    (∀ re, renderA eng (JsVal.vStr content) data options = .error re →
      renderTemplateA eng resolve fs cfg (JsVal.vStr b) data options
        = .error (.readError re.message)) ∧
    (∀ (cache : Cache T) out c2 n,
      renderBC eng cache (JsVal.vStr content) data options = (.ok out, c2, n) →
      renderTemplateB eng resolve fs cfg cache (JsVal.vStr b) data options
        = (.ok out, c2)) ∧
    (∀ (cache : Cache T) re c2 n,
      renderBC eng cache (JsVal.vStr content) data options = (.error re, c2, n) →
      renderTemplateB eng resolve fs cfg cache (JsVal.vStr b) data options
        = (.error (.readError re.message), c2)) := by
  refine ⟨?_, ?_, ?_, ?_⟩
  · intro out hr
    simp [renderTemplateA, hb, ho, hread, hr]
  · intro re hr
    simp [renderTemplateA, hb, ho, hread, hr]
  · intro cache out c2 n hr
    simp [renderTemplateB, hb, ho, hread, hr]
  · intro cache re c2 n hr
    simp [renderTemplateB, hb, ho, hread, hr]

/-- C5 counterexample: the read succeeds with valid template text but the
delegated `render` fails with INVALID_DATA; `render_template` does not
propagate that failure unchanged — it re-throws it as a file-read error
("Error reading template file: Invalid data: must be an object"). -/
theorem C5_counterexample :
    renderA engOk (JsVal.vStr "x") JsVal.vNull (JsVal.vObj JsObj.nil)
      = .error .invalidData ∧
    renderTemplateA engOk (fun d f => d ++ "/" ++ f) (fun _ => .ok "x")
        defaultModuleOptions (JsVal.vStr "t") JsVal.vNull (JsVal.vObj JsObj.nil)
      = .error (.readError "Invalid data: must be an object") :=
  ⟨rfl, rfl⟩

/-- Witness for C5 (amended) at concrete inputs: the success path returns
the render result, and a render failure comes back as a read error. -/
theorem C5_render_template_delegation_witness :
    renderTemplateA engOk (fun d f => d ++ "/" ++ f) (fun _ => .ok "x")
        defaultModuleOptions (JsVal.vStr "t") (JsVal.vObj JsObj.nil) (JsVal.vObj JsObj.nil)
      = .ok "out" ∧
    renderTemplateA engOk (fun d f => d ++ "/" ++ f) (fun _ => .ok "x")
        defaultModuleOptions (JsVal.vStr "t") JsVal.vNull (JsVal.vObj JsObj.nil)
      = .error (.readError "Invalid data: must be an object") :=
  ⟨(C5_render_template_delegation engOk (fun d f => d ++ "/" ++ f) (fun _ => .ok "x")
      defaultModuleOptions "t" (JsVal.vObj JsObj.nil) (JsVal.vObj JsObj.nil) "x"
      (by decide) rfl rfl).1 "out" rfl,
   (C5_render_template_delegation engOk (fun d f => d ++ "/" ++ f) (fun _ => .ok "x")
      defaultModuleOptions "t" JsVal.vNull (JsVal.vObj JsObj.nil) "x"
      (by decide) rfl rfl).2.1 RenderFailure.invalidData rfl⟩

/-- C6 (amended): when the resolved path does not exist (ENOENT) both
variants fail with "Template file not found: " followed by the resolved
path (the message includes the path); when the read fails for any other
reason they fail with "Error reading template file: " followed by the
underlying cause's message — the message includes the cause's message but
NOT the resolved path. -/
theorem C6_read_error_translation {T : Type} (eng : Engine T)
    (resolve : String → String → String) (fs : String → Except FsErr String)
    (cfg : ModuleOptions) (cache : Cache T) (b : String) (data options : JsVal)
    (p : String)
    (hb : strBlank b = false) (ho : isObjectLike options = true)
    (hp : p = resolve (getStrOpt options "template_path" cfg.template_path)
      (b ++ getStrOpt options "template_extension" cfg.template_extension)) :
    (fs p = .error .enoent →
      renderTemplateA eng resolve fs cfg (JsVal.vStr b) data options
        = .error (.templateNotFound p) ∧
      renderTemplateB eng resolve fs cfg cache (JsVal.vStr b) data options
        = (.error (.templateNotFound p), cache) ∧
      strContainsSub (FileRenderError.templateNotFound p).message p = true) ∧
    (∀ m, fs p = .error (.other m) →
      renderTemplateA eng resolve fs cfg (JsVal.vStr b) data options
        = .error (.readError m) ∧
      renderTemplateB eng resolve fs cfg cache (JsVal.vStr b) data options
        = (.error (.readError m), cache) ∧
      strContainsSub (FileRenderError.readError m).message m = true) := by
  subst hp
  constructor
  · intro hfs
    refine ⟨by simp [renderTemplateA, hb, ho, hfs],
            by simp [renderTemplateB, hb, ho, hfs], ?_⟩
    exact strContainsSub_append_right "Template file not found: " _
  · intro m hfs
    refine ⟨by simp [renderTemplateA, hb, ho, hfs],
            by simp [renderTemplateB, hb, ho, hfs], ?_⟩
    exact strContainsSub_append_right "Error reading template file: " _

/-- C6 counterexample: a non-ENOENT read failure produces the message
"Error reading template file: disk failure", which does not contain the
resolved path `templates/t.hbs` — the claim that the read-error message
includes the resolved path is false. -/
theorem C6_counterexample :
    renderTemplateA engOk (fun d f => d ++ "/" ++ f)
        (fun _ => .error (.other "disk failure"))
        defaultModuleOptions (JsVal.vStr "t") (JsVal.vObj JsObj.nil) (JsVal.vObj JsObj.nil)
      = .error (.readError "disk failure") ∧
    strContainsSub (FileRenderError.readError "disk failure").message
      ((fun d f => d ++ "/" ++ f) "templates" "t.hbs") = false :=
  ⟨rfl, by decide⟩

/-- Witness for C6 (amended) at concrete inputs. -/
theorem C6_read_error_translation_witness :
    renderTemplateA engOk (fun d f => d ++ "/" ++ f) (fun _ => .error .enoent)
        defaultModuleOptions (JsVal.vStr "t") (JsVal.vObj JsObj.nil) (JsVal.vObj JsObj.nil)
      = .error (.templateNotFound "templates/t.hbs") ∧
    strContainsSub (FileRenderError.templateNotFound "templates/t.hbs").message
      "templates/t.hbs" = true ∧
    renderTemplateA engOk (fun d f => d ++ "/" ++ f) (fun _ => .error (.other "disk failure"))
        defaultModuleOptions (JsVal.vStr "t") (JsVal.vObj JsObj.nil) (JsVal.vObj JsObj.nil)
      = .error (.readError "disk failure") := by
  have h1 := (C6_read_error_translation engOk (fun d f => d ++ "/" ++ f)
    (fun _ => .error .enoent) defaultModuleOptions ([] : Cache Unit) "t"
    (JsVal.vObj JsObj.nil) (JsVal.vObj JsObj.nil) "templates/t.hbs"
    (by decide) rfl (by decide)).1 rfl
  have h2 := (C6_read_error_translation engOk (fun d f => d ++ "/" ++ f)
    (fun _ => .error (.other "disk failure")) defaultModuleOptions ([] : Cache Unit) "t"
    (JsVal.vObj JsObj.nil) (JsVal.vObj JsObj.nil) "templates/t.hbs"
    (by decide) rfl (by decide)).2 "disk failure" rfl
  exact ⟨h1.1, h1.2.2, h2.1⟩


theorem renderTemplateA_eq_core {T : Type} (eng : Engine T)
    (resolve : String → String → String) (fs : String → Except FsErr String)
    (cfg : ModuleOptions) (basename data options : JsVal) :
    renderTemplateA eng resolve fs cfg basename data options =
      renderTemplateCore resolve fs cfg (renderA eng) basename data options := by
  cases basename <;> rfl

theorem renderTemplateB_fst_eq_core {T : Type} (eng : Engine T)
    (resolve : String → String → String) (fs : String → Except FsErr String)
    (cfg : ModuleOptions) (cache : Cache T) (basename data options : JsVal) :
    (renderTemplateB eng resolve fs cfg cache basename data options).1 =
      renderTemplateCore resolve fs cfg
        (fun src d o => (renderBC eng cache src d o).1) basename data options := by
  cases basename with
  | vStr b =>
    cases hb : strBlank b with
    | true => simp [renderTemplateB, renderTemplateCore, hb]
    | false =>
      cases ho : isObjectLike options with
      | false => simp [renderTemplateB, renderTemplateCore, hb, ho]
      | true =>
        cases hfs : fs (resolve (getStrOpt options "template_path" cfg.template_path)
            (b ++ getStrOpt options "template_extension" cfg.template_extension)) with
        | error fe =>
          cases fe with
          | enoent => simp [renderTemplateB, renderTemplateCore, hb, ho, hfs]
          | other m => simp [renderTemplateB, renderTemplateCore, hb, ho, hfs]
        | ok content =>
          rcases hr : renderBC eng cache (JsVal.vStr content) data options with ⟨r, c2, n⟩
          cases r with
          | ok out => simp [renderTemplateB, renderTemplateCore, hb, ho, hfs, hr]
          | error re => simp [renderTemplateB, renderTemplateCore, hb, ho, hfs, hr]
  | vNum n => rfl
  | vBool b => rfl
  | vNull => rfl
  | vArr a => rfl
  | vObj o => rfl

/-- C8 (amended): the blocking and non-blocking `render_template` variants
honor identical validation, path-resolution and read-error-translation
semantics: each is exactly the single shared pathway
`renderTemplateCore`, instantiated with its revision's `render`
(revision A the uncached `render`, revision B the cached one).  They are
NOT extensionally equal on every input, because the two delegated
renders disagree on compile-failure sources (see the counterexample);
they agree whenever the delegated renders agree. -/
theorem C8_variants_share_pathway {T : Type} (eng : Engine T)
    (resolve : String → String → String) (fs : String → Except FsErr String)
    (cfg : ModuleOptions) (cache : Cache T) (basename data options : JsVal) :
    renderTemplateA eng resolve fs cfg basename data options =
      renderTemplateCore resolve fs cfg (renderA eng) basename data options ∧
    (renderTemplateB eng resolve fs cfg cache basename data options).1 =
      renderTemplateCore resolve fs cfg
        (fun src d o => (renderBC eng cache src d o).1) basename data options :=
  ⟨renderTemplateA_eq_core eng resolve fs cfg basename data options,
   renderTemplateB_fst_eq_core eng resolve fs cfg cache basename data options⟩

/-- C8 counterexample: on a template file whose content fails to compile,
the revision-A (asynchronous) variant reports
"Error reading template file: Error rendering template" (the wrapped
TEMPLATE_RENDER_ERROR message) while the revision-B (synchronous)
variant reports "Error reading template file: boom" (the raw engine
error's message): the two variants do not produce the same error message
for the same input. -/
theorem C8_counterexample :
    renderTemplateA engCompileFail (fun d f => d ++ "/" ++ f) (fun _ => .ok "x")
        defaultModuleOptions (JsVal.vStr "t") (JsVal.vObj JsObj.nil) (JsVal.vObj JsObj.nil)
      = .error (.readError "Error rendering template") ∧
    (renderTemplateB engCompileFail (fun d f => d ++ "/" ++ f) (fun _ => .ok "x")
        defaultModuleOptions ([] : Cache Unit) (JsVal.vStr "t")
        (JsVal.vObj JsObj.nil) (JsVal.vObj JsObj.nil)).1
      = .error (.readError "boom") ∧
    ("Error rendering template" : String) ≠ "boom" :=
  ⟨rfl, rfl, by decide⟩

end Hbsr
